import Mathlib

/-!
Shallow embedding of the routing-optimization engine of
`backend/app/Roterizador/optimization.py` (class `RobustRouter` and the
`Vehicle` / `Point` / `Route` data model), together with theorems settling
the specification claims about it.

Modelling conventions:
* Python floats are modelled as rationals (`ℚ`); matrix cells and the
  scalar solution evaluation, which can be `float('inf')` in the source,
  are modelled as `WithTop ℚ` with `⊤` standing for `+∞`.
* Python `set` objects (vehicle skills, required skills) are `Finset String`.
* Time-of-day strings 'HH:MM' are parsed by `_time_to_minutes`; outside of
  `timeToMinutes` (its direct embedding) the structures carry the parsed
  minute values as `ℚ`.
* The ad hoc Portuguese reason strings attached to unassigned stops are
  modelled by the closed tag type `Reason` (one tag per distinct string).
-/

namespace Roterizador

/-- Embeds the `Vehicle` dataclass (optimization.py lines 47-70); only the
fields the optimization code reads are kept.  `startTime`/`endTime` hold the
`_time_to_minutes` parse of the 'HH:MM' strings. -/
structure Vehicle where
  id : ℕ
  capacity : ℚ
  volumeCapacity : ℚ
  startTime : ℚ
  endTime : ℚ
  speed : ℚ
  costPerKm : ℚ
  fixedCost : ℚ
  skills : Finset String
deriving DecidableEq

/-- Embeds `Vehicle.speed_mps` (lines 67-70): speed in km/h converted to m/s. -/
def Vehicle.speedMps (v : Vehicle) : ℚ := v.speed * 1000 / 3600

/-- Embeds the `Point` dataclass (lines 72-95); `timeWindowStart`/`timeWindowEnd`
hold the `_time_to_minutes` parse of the window strings. -/
structure Point where
  id : ℕ
  weight : ℚ
  volume : ℚ
  timeWindowStart : ℚ
  timeWindowEnd : ℚ
  serviceTime : ℚ
  requiredSkills : Finset String
deriving DecidableEq

/-- Embeds the mutable `Route` object (lines 97-131). -/
structure Route where
  vehicle : Vehicle
  points : List Point
  distance : ℚ
  duration : ℚ
  cost : ℚ
  load : ℚ
  volume : ℚ
  timeWindowsViolation : ℚ
  capacityViolation : ℚ
  skillRequirements : Finset String
deriving DecidableEq

/-- Embeds `Route.__init__` (lines 100-110): a fresh route for a vehicle. -/
def Route.init (v : Vehicle) : Route :=
  { vehicle := v, points := [], distance := 0, duration := 0, cost := 0,
    load := 0, volume := 0, timeWindowsViolation := 0, capacityViolation := 0,
    skillRequirements := ∅ }

/-- Embeds `Route.add_point` (lines 112-124): appends a point, accumulates
distance/duration/load/volume/skills, adds the per-km cost, and adds the fixed
cost when the appended point is the first of the route. -/
def Route.addPoint (r : Route) (p : Point) (distance duration : ℚ) : Route :=
  let r1 : Route :=
    { r with
      points := r.points ++ [p],
      distance := r.distance + distance,
      duration := r.duration + duration,
      load := r.load + p.weight,
      volume := r.volume + p.volume,
      skillRequirements := r.skillRequirements ∪ p.requiredSkills,
      cost := r.cost + (distance / 1000) * r.vehicle.costPerKm }
  if r1.points.length = 1 then { r1 with cost := r1.cost + r.vehicle.fixedCost }
  else r1

/-- Embeds `Route.is_feasible` (lines 126-131): load within capacity, volume
within volume capacity, and both violation accumulators zero.  The route's
`skill_requirements` set is not consulted. -/
def Route.isFeasible (r : Route) : Bool :=
  decide (r.load ≤ r.vehicle.capacity) &&
  decide (r.volume ≤ r.vehicle.volumeCapacity) &&
  decide (r.timeWindowsViolation = 0) &&
  decide (r.capacityViolation = 0)

/-- Closed tags standing for the distinct unassigned-reason strings produced
at lines 709-759 (skill / capacity / time-window mismatch, unknown). -/
inductive Reason where
  | skillMismatch
  | capacityMismatch
  | timeWindowMismatch
  | unknown
deriving DecidableEq

/-- One route dictionary of a solution (the dict built at lines 685-706):
vehicle id, the ordered list of served stop ids, and the derived metrics. -/
structure RouteOut where
  vehicleId : ℕ
  points : List ℕ
  distance : ℚ
  duration : ℚ
  cost : ℚ
  load : ℚ
  volume : ℚ
  feasible : Bool
deriving DecidableEq

/-- One entry of a solution's `unassigned` list (lines 749-759). -/
structure UnassignedEntry where
  pointId : ℕ
  reasons : List Reason
deriving DecidableEq

/-- The `stats` dictionary of a solution (lines 771-778). -/
structure SolutionStats where
  totalDistance : ℚ
  totalCost : ℚ
  totalPointsServed : ℕ
  totalPoints : ℕ
  feasible : Bool
deriving DecidableEq

/-- A solution dictionary: `routes`, `unassigned`, `stats` (lines 768-779). -/
structure Solution where
  routes : List RouteOut
  unassigned : List UnassignedEntry
  stats : SolutionStats
deriving DecidableEq

/-- All routes of a solution carry `feasible = True`; this is exactly the
expression `all(r['feasible'] for r in solution['routes'])`. -/
def routesAllFeasible (s : Solution) : Bool :=
  s.routes.all (fun r => r.feasible)

/-- Embeds `RobustRouter._is_better_solution` (lines 1066-1095).  Feasibility
of a solution is computed from the routes alone; the unassigned list is not
consulted. -/
def isBetterSolution (newSol curSol : Solution) : Bool :=
  let newFeasible := routesAllFeasible newSol
  let curFeasible := routesAllFeasible curSol
  if newFeasible && !curFeasible then true
  else if !newFeasible && curFeasible then false
  else if newSol.stats.totalPointsServed > curSol.stats.totalPointsServed then true
  else if newSol.stats.totalPointsServed = curSol.stats.totalPointsServed then
    decide (newSol.stats.totalCost < curSol.stats.totalCost)
  else false

/-- Modelled from the spec for comparison with `isBetterSolution`: the §4.3
comparator with the claim's Solution-level feasibility (all routes feasible
AND no unassigned stops). -/
def specBetterSolution (a b : Solution) : Bool :=
  let aFeasible := routesAllFeasible a && a.unassigned.isEmpty
  let bFeasible := routesAllFeasible b && b.unassigned.isEmpty
  if aFeasible && !bFeasible then true
  else if !aFeasible && bFeasible then false
  else if a.stats.totalPointsServed > b.stats.totalPointsServed then true
  else if a.stats.totalPointsServed = b.stats.totalPointsServed then
    decide (a.stats.totalCost < b.stats.totalCost)
  else false

/-- Embeds `RobustRouter._evaluate_solution` (lines 1513-1538).  A solution
with any infeasible route or any unassigned stop evaluates to `float('inf')`
(modelled as `⊤`); otherwise the total cost, plus 1000 per unserved stop when
fewer stops are served than exist. -/
def evaluateSolution (s : Solution) : WithTop ℚ :=
  let feasible := routesAllFeasible s && s.unassigned.isEmpty
  if !feasible then ⊤
  else
    let totalCost := s.stats.totalCost
    if s.stats.totalPointsServed < s.stats.totalPoints then
      (((totalCost + ((s.stats.totalPoints - s.stats.totalPointsServed : ℕ) : ℚ) * 1000) : ℚ) : WithTop ℚ)
    else ((totalCost : ℚ) : WithTop ℚ)

/-- Solution used to refute claim C2: all its routes are feasible but one
stop is unassigned, so the claim's Solution-level feasibility is false. -/
def c2SolA : Solution :=
  { routes := [{ vehicleId := 1, points := [10], distance := 0, duration := 0,
                 cost := 10, load := 0, volume := 0, feasible := true }],
    unassigned := [{ pointId := 11, reasons := [Reason.unknown] }],
    stats := { totalDistance := 0, totalCost := 10, totalPointsServed := 1,
               totalPoints := 2, feasible := false } }

/-- Solution used to refute claim C2: it has an infeasible route but no
unassigned stop, and serves more stops at lower cost than `c2SolA`. -/
def c2SolB : Solution :=
  { routes := [{ vehicleId := 1, points := [10, 11], distance := 0, duration := 0,
                 cost := 5, load := 0, volume := 0, feasible := false }],
    unassigned := [],
    stats := { totalDistance := 0, totalCost := 5, totalPointsServed := 2,
               totalPoints := 2, feasible := false } }

/-- Solution used to refute claim C3: one unassigned stop, every route
feasible, total cost 10, one of two stops served. -/
def c3Sol : Solution :=
  { routes := [{ vehicleId := 1, points := [10], distance := 0, duration := 0,
                 cost := 10, load := 0, volume := 0, feasible := true }],
    unassigned := [{ pointId := 11, reasons := [Reason.unknown] }],
    stats := { totalDistance := 0, totalCost := 10, totalPointsServed := 1,
               totalPoints := 2, feasible := false } }

/-- Embeds the off-diagonal cell computation of
`_create_distance_time_matrices` (lines 520-566) for one ordered pair of
distinct stops.  `pathLength` is `some d` when `nx.shortest_path` finds a path
of total edge length `d`, and `none` when `NetworkXNoPath`/`NodeNotFound` is
raised; `postedSpeed` is the `maxspeed` attribute of the last edge when
present; `havDist` is the value `R * c` produced by the haversine formula at
the two stops' coordinates (the trigonometric evaluation over floats is
abstracted as this input).  Returns the (distance, time) cell pair; cells are
`WithTop ℚ` because the float matrices could in principle hold `inf`. -/
def matrixEntries (pathLength : Option ℚ) (postedSpeed : Option ℚ)
    (havDist : ℚ) : WithTop ℚ × WithTop ℚ :=
  match pathLength with
  | some d =>
    let speedKph : ℚ := match postedSpeed with | some s => s | none => 40
    let speedMps := speedKph * 1000 / 3600
    (((d : ℚ) : WithTop ℚ), ((d / speedMps / 60 : ℚ) : WithTop ℚ))
  | none =>
    let distance := havDist
    let avgSpeed : ℚ := 40 * 1000 / 3600
    let duration := distance / avgSpeed
    ((distance : WithTop ℚ), ((duration / 60 : ℚ) : WithTop ℚ))

/-- Embeds the move dictionary built by `_get_move_difference` (lines
1540-1557): the per-vehicle ordered stop-id lists of both solutions.  The
constant `'type': 'move'` field is the same on every move and is omitted. -/
structure Move where
  routes1 : List (ℕ × List ℕ)
  routes2 : List (ℕ × List ℕ)
deriving DecidableEq

/-- Embeds `_get_move_difference` (lines 1540-1557). -/
def getMoveDifference (s1 s2 : Solution) : Move :=
  { routes1 := s1.routes.map (fun r => (r.vehicleId, r.points)),
    routes2 := s2.routes.map (fun r => (r.vehicleId, r.points)) }

/-- The one uncaught Python exception the tabu iteration can raise. -/
inductive PyError where
  | typeError
deriving DecidableEq

/-- Embeds `_is_same_move` (lines 1559-1576) as it is actually called from
line 1207: the second argument is a whole `(move, expiry)` tuple from the
tabu list (appended at line 1236), and the very first access
`move2['type']` subscripts that tuple with a string, which raises
`TypeError` before any comparison runs.  The dict/dict comparison body of
`_is_same_move` is therefore unreachable from the tabu loop and is not
modelled. -/
def isSameMoveOnTuple (_ : Move) (_ : Move × ℕ) : Except PyError Bool :=
  Except.error PyError.typeError

/-- Embeds `any(self._is_same_move(move, tabu_move) for tabu_move in
tabu_list)` (line 1207): Python's `any` pulls the generator lazily, so the
first tabu entry already raises; only the empty tabu list yields `False`. -/
def anyTabu (move : Move) : List (Move × ℕ) → Except PyError Bool
  | [] => Except.ok false
  | tm :: rest =>
    match isSameMoveOnTuple move tm with
    | Except.error e => Except.error e
    | Except.ok b => if b then Except.ok true else anyTabu move rest

/-- The running best of the selection loop: `none` models the initial
`best_neighbor = None` with `best_neighbor_value = float('inf')`. -/
def accValue : Option (Solution × WithTop ℚ × Move) → WithTop ℚ
  | none => ⊤
  | some (_, v, _) => v

/-- One pass of the neighbor-evaluation loop body (lines 1201-1215):
compute the neighbor's value and move, test tabu membership (which can
raise, see `isSameMoveOnTuple`), then replace the running best when the
neighbor qualifies (not tabu, or tabu but strictly beating the global best)
and its value is strictly smaller than the running best value. -/
def tabuConsiderE (cur globalBest : Solution) (tabuList : List (Move × ℕ))
    (acc : Option (Solution × WithTop ℚ × Move)) (n : Solution) :
    Except PyError (Option (Solution × WithTop ℚ × Move)) :=
  let v := evaluateSolution n
  let move := getMoveDifference cur n
  match anyTabu move tabuList with
  | Except.error e => Except.error e
  | Except.ok isTabu =>
    if (!isTabu || (isTabu && decide (v < evaluateSolution globalBest))) &&
        decide (v < accValue acc) then
      Except.ok (some (n, v, move))
    else Except.ok acc

/-- The loop body specialised to an empty tabu list, where no exception is
possible and every neighbor is non-tabu (hence qualifies). -/
def tabuConsider0 (cur : Solution) (acc : Option (Solution × WithTop ℚ × Move))
    (n : Solution) : Option (Solution × WithTop ℚ × Move) :=
  if decide (evaluateSolution n < accValue acc) then
    some (n, evaluateSolution n, getMoveDifference cur n)
  else acc

/-- The neighbor loop of `_tabu_search` (lines 1197-1215): run the body over
the neighbors in order, propagating a raised exception. -/
def selectLoopE (cur globalBest : Solution) (tabuList : List (Move × ℕ)) :
    Option (Solution × WithTop ℚ × Move) → List Solution →
    Except PyError (Option (Solution × WithTop ℚ × Move))
  | acc, [] => Except.ok acc
  | acc, n :: rest =>
    match tabuConsiderE cur globalBest tabuList acc n with
    | Except.error e => Except.error e
    | Except.ok acc2 => selectLoopE cur globalBest tabuList acc2 rest

/-- Embeds the whole neighbor-selection loop of `_tabu_search` (lines
1197-1215), starting from `best_neighbor = None`. -/
def selectBestNeighborE (cur globalBest : Solution) (tabuList : List (Move × ℕ))
    (neighbors : List Solution) :
    Except PyError (Option (Solution × WithTop ℚ × Move)) :=
  selectLoopE cur globalBest tabuList none neighbors

/-- Outcome of one tabu iteration after selection: the uncaught exception
propagates out of the search; otherwise `break` on `None` (lines 1217-1220)
or advance to the selected neighbor (line 1223). -/
inductive TabuStepResult where
  | raised (e : PyError)
  | terminated
  | advanced (next : Solution) (value : WithTop ℚ) (move : Move)
deriving DecidableEq

/-- Embeds lines 1197-1223 of `_tabu_search`: run the selection loop; a
raised exception aborts the search, `None` breaks the loop, and a selected
neighbor becomes the next current solution. -/
def tabuSelectStep (cur globalBest : Solution) (tabuList : List (Move × ℕ))
    (neighbors : List Solution) : TabuStepResult :=
  match selectBestNeighborE cur globalBest tabuList neighbors with
  | Except.error e => TabuStepResult.raised e
  | Except.ok none => TabuStepResult.terminated
  | Except.ok (some (n, v, m)) => TabuStepResult.advanced n v m

/-- Current solution for the C5 scenario: one route serving stops 1 then 2. -/
def c5Cur : Solution :=
  { routes := [{ vehicleId := 1, points := [1, 2], distance := 0, duration := 0,
                 cost := 10, load := 0, volume := 0, feasible := true }],
    unassigned := [],
    stats := { totalDistance := 0, totalCost := 10, totalPointsServed := 2,
               totalPoints := 2, feasible := true } }

/-- The single neighbor of the C5 scenario: the same stops in reversed order,
at a higher cost than the global best, so aspiration cannot fire. -/
def c5N : Solution :=
  { routes := [{ vehicleId := 1, points := [2, 1], distance := 0, duration := 0,
                 cost := 12, load := 0, volume := 0, feasible := true }],
    unassigned := [],
    stats := { totalDistance := 0, totalCost := 12, totalPointsServed := 2,
               totalPoints := 2, feasible := true } }

/-- Global best of the C5 scenario, strictly cheaper than the neighbor. -/
def c5Best : Solution :=
  { routes := [{ vehicleId := 1, points := [1, 2], distance := 0, duration := 0,
                 cost := 5, load := 0, volume := 0, feasible := true }],
    unassigned := [],
    stats := { totalDistance := 0, totalCost := 5, totalPointsServed := 2,
               totalPoints := 2, feasible := true } }

/-- A tabu list containing exactly the move leading to the C5 neighbor, as
the source stores it: a `(move, expiry)` tuple (line 1236). -/
def c5Tabu : List (Move × ℕ) := [(getMoveDifference c5Cur c5N, 3)]

/-- A neighbor that evaluates to `float('inf')`: one stop unassigned. -/
def c5Inf : Solution :=
  { routes := [{ vehicleId := 1, points := [1], distance := 0, duration := 0,
                 cost := 7, load := 0, volume := 0, feasible := true }],
    unassigned := [{ pointId := 2, reasons := [Reason.unknown] }],
    stats := { totalDistance := 0, totalCost := 7, totalPointsServed := 1,
               totalPoints := 2, feasible := false } }

/-- Context of the constructive builder (`_create_initial_solution`, lines
576-674): the delivery points and the distance/time matrices.  Matrix index 0
is the depot and index `i + 1` is `pts[i]`, exactly the `from_idx`/`to_idx`
convention of lines 631-632; the matrices are total functions because every
cell built by `_create_distance_time_matrices` is finite (see C4). -/
structure BuilderCtx where
  pts : List Point
  dist : ℕ → ℕ → ℚ
  timeM : ℕ → ℕ → ℚ

/-- Out-of-range index default; the source would raise instead, so theorems
about concrete runs only use in-range indices. -/
def defaultPoint : Point :=
  { id := 0, weight := 0, volume := 0, timeWindowStart := 0, timeWindowEnd := 0,
    serviceTime := 0, requiredSkills := ∅ }

/-- The point at pool index `pIdx` (0-based position in `pts`). -/
def BuilderCtx.pt (ctx : BuilderCtx) (pIdx : ℕ) : Point :=
  ctx.pts.getD pIdx defaultPoint

/-- Embeds lines 641-649: arrival at a candidate is the clock plus the travel
time from the current position, raised to the window start when early. -/
def arrivalTime (ctx : BuilderCtx) (curTime : ℚ) (fromIdx pIdx : ℕ) : ℚ :=
  let p := ctx.pt pIdx
  let arrival := curTime + ctx.timeM fromIdx (pIdx + 1)
  if arrival < p.timeWindowStart then p.timeWindowStart else arrival

/-- Embeds the `continue`-chain of lines 626-653: a pool stop is a candidate
iff the vehicle has its required skills, adding it keeps load and volume
within the vehicle's capacities, and the (window-raised) arrival time does not
exceed the stop's window end. -/
def isCandidate (ctx : BuilderCtx) (v : Vehicle) (load vol curTime : ℚ)
    (fromIdx pIdx : ℕ) : Bool :=
  let p := ctx.pt pIdx
  decide (p.requiredSkills ⊆ v.skills) &&
  !(decide (load + p.weight > v.capacity) ||
    decide (vol + p.volume > v.volumeCapacity)) &&
  !decide (arrivalTime ctx curTime fromIdx pIdx > p.timeWindowEnd)

/-- The distance of the running best candidate; `⊤` models the initial
`best_distance = float('inf')` of line 621. -/
def bestDistSoFar : Option (ℕ × ℕ × ℚ × ℚ) → WithTop ℚ
  | none => ⊤
  | some (_, _, d, _) => (d : WithTop ℚ)

/-- One pass of the candidate scan body (lines 625-660) over the enumerated
pool entry `x = (i, pIdx)`: a candidate replaces the running best
`(point, index, distance, arrival)` when its distance is strictly smaller
(so the first-encountered stop wins ties). -/
def considerStop (ctx : BuilderCtx) (v : Vehicle) (load vol curTime : ℚ)
    (fromIdx : ℕ) (acc : Option (ℕ × ℕ × ℚ × ℚ)) (x : ℕ × ℕ) :
    Option (ℕ × ℕ × ℚ × ℚ) :=
  if isCandidate ctx v load vol curTime fromIdx x.2 then
    let d := ctx.dist fromIdx (x.2 + 1)
    match acc with
    | none => some (x.2, x.1, d, arrivalTime ctx curTime fromIdx x.2)
    | some (_, _, bd, _) =>
      if d < bd then some (x.2, x.1, d, arrivalTime ctx curTime fromIdx x.2)
      else acc
  else acc

/-- Embeds the whole candidate scan of one inner-loop iteration (lines
619-660): fold the scan body over the enumerated unassigned pool.  The result
is `(point index, pool position, distance, arrival time)` of the selected
stop, or `none` when no stop is a candidate. -/
def findBestCandidate (ctx : BuilderCtx) (v : Vehicle) (load vol curTime : ℚ)
    (fromIdx : ℕ) (toAssign : List ℕ) : Option (ℕ × ℕ × ℚ × ℚ) :=
  toAssign.enum.foldl (considerStop ctx v load vol curTime fromIdx) none

/-- State of the builder's inner loop for one vehicle: the route built so
far, the matrix index of the current position (0 = depot), the clock, and the
pool of still-unassigned stops (as indices into `ctx.pts`). -/
structure BuilderState where
  route : Route
  currentIdx : ℕ
  currentTime : ℚ
  toAssign : List ℕ
deriving DecidableEq

/-- Embeds one iteration of the inner `while` loop (lines 618-674): scan for
the best candidate; if none exists the route ends (`none`), otherwise append
the stop via `Route.add_point` with duration `distance / speed_mps`, advance
the clock to arrival plus service time, move to the stop, and remove it from
the pool (`pop(best_index)`). -/
def builderStep (ctx : BuilderCtx) (v : Vehicle) (st : BuilderState) :
    Option BuilderState :=
  match findBestCandidate ctx v st.route.load st.route.volume st.currentTime
      st.currentIdx st.toAssign with
  | none => none
  | some (pIdx, i, d, arrival) =>
    let p := ctx.pt pIdx
    some { route := st.route.addPoint p d (d / v.speedMps),
           currentIdx := pIdx + 1,
           currentTime := arrival + p.serviceTime,
           toAssign := st.toAssign.eraseIdx i }

/-- Vehicle for the C6 witness scenario. -/
def c6Vehicle : Vehicle :=
  { id := 1, capacity := 100, volumeCapacity := 10, startTime := 480,
    endTime := 1080, speed := 40, costPerKm := 10, fixedCost := 100,
    skills := ∅ }

/-- First stop of the C6 witness scenario (matrix index 1). -/
def c6P0 : Point :=
  { id := 1, weight := 10, volume := 1, timeWindowStart := 480,
    timeWindowEnd := 1080, serviceTime := 30, requiredSkills := ∅ }

/-- Second stop of the C6 witness scenario (matrix index 2). -/
def c6P1 : Point :=
  { id := 2, weight := 20, volume := 2, timeWindowStart := 480,
    timeWindowEnd := 1080, serviceTime := 30, requiredSkills := ∅ }

/-- Builder context for the C6 witness: two stops, the first 1000 m from the
depot and the second 2000 m, all travel times 10 minutes. -/
def c6Ctx : BuilderCtx :=
  { pts := [c6P0, c6P1],
    dist := fun i j => if i = 0 ∧ j = 1 then 1000 else if i = 0 ∧ j = 2 then 2000 else 0,
    timeM := fun _ _ => 10 }

/-- Initial builder state for the C6 witness: at the depot at 08:00 with both
stops unassigned. -/
def c6State : BuilderState :=
  { route := Route.init c6Vehicle, currentIdx := 0, currentTime := 480,
    toAssign := [0, 1] }

/-- Builder state after one step in the C6 witness scenario: stop 0 appended,
clock at 490 + 30 = 520, stop 1 still unassigned. -/
def c6StateNext : BuilderState :=
  { route := (Route.init c6Vehicle).addPoint c6P0 1000 (1000 / c6Vehicle.speedMps),
    currentIdx := 1, currentTime := 520, toAssign := [1] }

/-- A decimal digit, as Python's `int` accepts it. -/
def charDigit? (c : Char) : Option ℕ :=
  if '0' ≤ c ∧ c ≤ '9' then some (c.toNat - '0'.toNat) else none

/-- Accumulating decimal parse of a digit string. -/
def digitsToNatAux : List Char → ℕ → Option ℕ
  | [], acc => some acc
  | c :: cs, acc =>
    match charDigit? c with
    | some d => digitsToNatAux cs (acc * 10 + d)
    | none => none

/-- Parse of a non-empty all-digit string; `none` where Python's `int`
raises `ValueError`. -/
def digitsToNat? (cs : List Char) : Option ℕ :=
  match cs with
  | [] => none
  | _ => digitsToNatAux cs 0

/-- Integer parse in the sense of Python's `int(str)` (sign handling reduced
to the leading minus; whitespace/plus tolerance of Python is not exercised by
any theorem below). -/
def strToInt? (cs : List Char) : Option ℤ :=
  match cs with
  | '-' :: rest => (digitsToNat? rest).map (fun n => -(n : ℤ))
  | _ => (digitsToNat? cs).map (fun n => (n : ℤ))

/-- Split at ':' characters, as Python's `str.split(':')`. -/
def splitCols (cs : List Char) : List (List Char) :=
  cs.foldr
    (fun c acc =>
      if c = ':' then [] :: acc
      else
        match acc with
        | [] => [[c]]
        | g :: gs => (c :: g) :: gs)
    [[]]

/-- Embeds `_time_to_minutes` (lines 236-242): 'HH:MM' to minutes since
midnight, and 0 — never an exception — for any string that does not parse
(wrong number of ':' fields or non-integer fields). -/
def timeToMinutes (s : String) : ℚ :=
  match splitCols s.data with
  | [hs, ms] =>
    match strToInt? hs, strToInt? ms with
    | some h, some m => (h : ℚ) * 60 + (m : ℚ)
    | _, _ => 0
  | _ => 0

/-- One vehicle record of the request payload, reduced to the field whose
`float()` conversion can fail in `_create_vehicles` (lines 294-333); `none`
models a value on which `float()` raises. -/
structure VehicleData where
  capacity : Option ℚ
deriving DecidableEq

/-- One stop record of the request payload: coordinates whose `float()`
conversion can fail (modelled by `none`) and the two raw time-window
strings, which `_create_points` stores without parsing. -/
structure PointData where
  lat : Option ℚ
  lng : Option ℚ
  timeWindowStart : String
  timeWindowEnd : String
deriving DecidableEq

/-- A request payload (`request_data`): its `vehicles` and `points` lists. -/
structure RequestData where
  vehicles : List VehicleData
  points : List PointData
deriving DecidableEq

/-- Embeds `_create_vehicles` (lines 294-333): fails iff some numeric field
conversion raises inside the `try` block. -/
def createVehicles (l : List VehicleData) : Option (List ℚ) :=
  l.mapM (fun v => v.capacity)

/-- Embeds the per-point body of `_create_points` (lines 349-369): the
coordinate conversions can raise (`none`), while the time-window strings are
stored as given and parsed only later by `_time_to_minutes`, which cannot
fail. -/
def parsePointData (p : PointData) : Option (ℚ × ℚ × ℚ × ℚ) :=
  match p.lat, p.lng with
  | some la, some ln =>
    some (la, ln, timeToMinutes p.timeWindowStart, timeToMinutes p.timeWindowEnd)
  | _, _ => none

/-- Embeds `_create_points` (lines 335-386): fails iff some point's
conversion raises. -/
def createPoints (l : List PointData) : Option (List (ℚ × ℚ × ℚ × ℚ)) :=
  l.mapM parsePointData

/-- The externally observable work phases of `solve_vrp`, in program order. -/
inductive SolveEvent where
  | loadMap
  | createVehiclesPhase
  | createPointsPhase
  | buildMatrices
  | search
deriving DecidableEq

/-- The errors `solve_vrp` raises on bad input (its `ValueError` cases). -/
inductive SolveError where
  | noVehicles
  | noPoints
  | vehiclesFailed
  | pointsFailed
deriving DecidableEq

/-- Outcome of `solve_vrp`: normal return or a raised input error. -/
inductive SolveOutcome where
  | ok
  | inputError (e : SolveError)
deriving DecidableEq

/-- Embeds the control flow of `solve_vrp` (lines 1097-1148) as the list of
work phases performed followed by the outcome.  The empty-vehicles and
empty-points checks (lines 1112-1116) run before anything else; the road
network is loaded at line 1119, before vehicles and points are parsed;
matrix building and search follow.  `load_map`'s own failure mode
(`RuntimeError`, line 1120) is orthogonal to the claim and modelled as
success. -/
def solveVrp (req : RequestData) : List SolveEvent × SolveOutcome :=
  if req.vehicles.isEmpty then ([], SolveOutcome.inputError SolveError.noVehicles)
  else if req.points.isEmpty then ([], SolveOutcome.inputError SolveError.noPoints)
  else
    match createVehicles req.vehicles with
    | none => ([SolveEvent.loadMap, SolveEvent.createVehiclesPhase],
               SolveOutcome.inputError SolveError.vehiclesFailed)
    | some _ =>
      match createPoints req.points with
      | none => ([SolveEvent.loadMap, SolveEvent.createVehiclesPhase,
                  SolveEvent.createPointsPhase],
                 SolveOutcome.inputError SolveError.pointsFailed)
      | some _ =>
        ([SolveEvent.loadMap, SolveEvent.createVehiclesPhase,
          SolveEvent.createPointsPhase, SolveEvent.buildMatrices,
          SolveEvent.search],
         SolveOutcome.ok)

/-- Payload whose only stop has valid coordinates but malformed time-window
strings. -/
def c7ReqBadTime : RequestData :=
  { vehicles := [{ capacity := some 1000 }],
    points := [{ lat := some 1, lng := some 2,
                 timeWindowStart := "banana", timeWindowEnd := "a:b:c" }] }

/-- Payload whose only stop has a malformed latitude. -/
def c7ReqBadCoord : RequestData :=
  { vehicles := [{ capacity := some 1000 }],
    points := [{ lat := none, lng := some 2,
                 timeWindowStart := "08:00", timeWindowEnd := "18:00" }] }

/-- The empty payload. -/
def c7ReqEmpty : RequestData := { vehicles := [], points := [] }

/-- A payload with one vehicle and no stops. -/
def c7ReqNoPoints : RequestData :=
  { vehicles := [{ capacity := some 1 }], points := [] }

/-- A stop record with valid coordinates and malformed time strings. -/
def c7GoodCoordPoint : PointData :=
  { lat := some 1, lng := some 2,
    timeWindowStart := "banana", timeWindowEnd := "x" }

/-- Embeds the global-best update of `_vnd_search` (lines 829-831): the best
solution is replaced only when the comparator says the current one is
strictly better.  (`copy.deepcopy` is the identity in this value model.) -/
def vndUpdateBest (cur best : Solution) : Solution :=
  if isBetterSolution cur best then cur else best

/-- Embeds the global-best update of `_tabu_search` (lines 1226-1232): the
global best is replaced only when the selected neighbor's scalar value is
strictly below the global best's. -/
def tabuUpdateBest (neighbor globalBest : Solution) : Solution :=
  if evaluateSolution neighbor < evaluateSolution globalBest then neighbor
  else globalBest

/-- Embeds the best-solution update of `_grasp` (lines 1271-1272): the first
iteration installs its solution, later ones replace it only when the
comparator says the new one is strictly better. -/
def graspUpdateBest (sol : Solution) (best : Option Solution) : Option Solution :=
  match best with
  | none => some sol
  | some b => if isBetterSolution sol b then some sol else some b

/-- Conservation of stops in a solution's stored statistics: stops served
plus stops unassigned equals the stop total (spec §8, holds for every
solution the engine builds). -/
def consistentStats (s : Solution) : Prop :=
  s.stats.totalPointsServed + s.unassigned.length = s.stats.totalPoints

/-- A fully feasible one-stop solution of cost 5 (C8 witness). -/
def c8N : Solution :=
  { routes := [{ vehicleId := 1, points := [1], distance := 0, duration := 0,
                 cost := 5, load := 0, volume := 0, feasible := true }],
    unassigned := [],
    stats := { totalDistance := 0, totalCost := 5, totalPointsServed := 1,
               totalPoints := 1, feasible := true } }

/-- A fully feasible one-stop solution of cost 10 (C8 witness). -/
def c8Gb : Solution :=
  { routes := [{ vehicleId := 1, points := [1], distance := 0, duration := 0,
                 cost := 10, load := 0, volume := 0, feasible := true }],
    unassigned := [],
    stats := { totalDistance := 0, totalCost := 10, totalPointsServed := 1,
               totalPoints := 1, feasible := true } }

/-- The loop body of `_update_route_stats` (lines 1016-1044) over one stop of
the route, carrying `(temp_route, from_idx, current_time)`.  The `duration`
passed to `add_point` here is `time_matrix * 60` seconds (line 1024); arrival
is the clock plus travel minutes, raised to the stop's window start.  The
in-loop write `route['feasible'] = False` on a window miss (line 1037) is
dead — line 1060 overwrites the flag with `temp_route.is_feasible()`, which
the claim relies on — so it does not appear in the state. -/
def updateStatsFold (ctx : BuilderCtx) (st : Route × ℕ × ℚ) (pIdx : ℕ) :
    Route × ℕ × ℚ :=
  let p := ctx.pt pIdx
  let distance := ctx.dist st.2.1 (pIdx + 1)
  let duration := ctx.timeM st.2.1 (pIdx + 1) * 60
  let arrival0 := st.2.2 + duration / 60
  let arrival := if arrival0 < p.timeWindowStart then p.timeWindowStart else arrival0
  (st.1.addPoint p distance duration, pIdx + 1, arrival + p.serviceTime)

/-- Embeds `_update_route_stats` (lines 999-1064): rebuild a temporary route
from the vehicle's start time through the route's stops (given as indices
into `ctx.pts`), then add the return-to-depot leg when at least one stop was
visited.  The recomputed metrics and the final `is_feasible()` flag are read
off the returned `Route`. -/
def updateRouteStats (ctx : BuilderCtx) (v : Vehicle) (pointIdxs : List ℕ) :
    Route :=
  let res := pointIdxs.foldl (updateStatsFold ctx) (Route.init v, 0, v.startTime)
  if res.2.1 ≠ 0 then
    { res.1 with
      distance := res.1.distance + ctx.dist res.2.1 0,
      duration := res.1.duration + ctx.dist res.2.1 0 / v.speedMps,
      cost := res.1.cost + (ctx.dist res.2.1 0 / 1000) * v.costPerKm }
  else res.1

/-- Vehicle for the C9 scenario: its operating window ends at 540 (09:00). -/
def c9Vehicle : Vehicle :=
  { id := 1, capacity := 100, volumeCapacity := 10, startTime := 480,
    endTime := 540, speed := 40, costPerKm := 10, fixedCost := 100,
    skills := ∅ }

/-- Stop for the C9 scenario: its own window runs to 1080 (18:00). -/
def c9Stop : Point :=
  { id := 1, weight := 10, volume := 1, timeWindowStart := 480,
    timeWindowEnd := 1080, serviceTime := 30, requiredSkills := ∅ }

/-- Context for the C9 scenario: one stop, 100 minutes from the depot. -/
def c9Ctx : BuilderCtx :=
  { pts := [c9Stop], dist := fun _ _ => 1000, timeM := fun _ _ => 100 }

/-- Embeds the unassigned-reason inference (lines 709-747 of
`_create_initial_solution`; lines 1415-1453 of `_grasp_construct` are
identical): the skill reason when no vehicle has the required skills, the
capacity reason when no vehicle that has the skills also fits weight and
volume, the time reason when no vehicle that has the skills overlaps the
stop's window, and the unknown tag when no reason was detected. -/
def unassignedReasons (vehicles : List Vehicle) (p : Point) : List Reason :=
  let r1 := if !vehicles.any (fun v => decide (p.requiredSkills ⊆ v.skills))
            then [Reason.skillMismatch] else []
  let hasCapacity := vehicles.any (fun v =>
    decide (v.capacity ≥ p.weight) && decide (v.volumeCapacity ≥ p.volume) &&
    decide (p.requiredSkills ⊆ v.skills))
  let r2 := if !hasCapacity then [Reason.capacityMismatch] else []
  let hasTime := vehicles.any (fun v =>
    decide (p.requiredSkills ⊆ v.skills) &&
    (decide (p.timeWindowStart ≤ v.endTime) &&
     decide (p.timeWindowEnd ≥ v.startTime)))
  let r3 := if !hasTime then [Reason.timeWindowMismatch] else []
  let rs := r1 ++ r2 ++ r3
  if rs.isEmpty then [Reason.unknown] else rs

/-- Vehicle for the C10 witness: ample capacity, no skills. -/
def c10Vehicle : Vehicle :=
  { id := 1, capacity := 1000, volumeCapacity := 100, startTime := 480,
    endTime := 1080, speed := 40, costPerKm := 10, fixedCost := 100,
    skills := ∅ }

/-- Stop for the C10 witness: tiny demand but a skill no vehicle has. -/
def c10Stop : Point :=
  { id := 1, weight := 1, volume := 1, timeWindowStart := 480,
    timeWindowEnd := 1080, serviceTime := 30, requiredSkills := {"cold"} }

/-- Claim C1 as stated is false: this route's accumulated required skills
('cold') are not a subset of its vehicle's (empty) skill set, yet
`Route.is_feasible` returns true — the source never checks the skill set. -/
theorem C1_counterexample :
    ¬ (Route.isFeasible
        { vehicle := { id := 0, capacity := 100, volumeCapacity := 10,
                       startTime := 480, endTime := 1080, speed := 40,
                       costPerKm := 10, fixedCost := 100, skills := ∅ },
          points := [], distance := 0, duration := 0, cost := 0, load := 50,
          volume := 5, timeWindowsViolation := 0, capacityViolation := 0,
          skillRequirements := {"cold"} } = true ↔
       ((50 : ℚ) ≤ 100 ∧ (5 : ℚ) ≤ 10 ∧ (0 : ℚ) = 0 ∧ (0 : ℚ) = 0 ∧
        ({"cold"} : Finset String) ⊆ ∅)) := by
  decide

/-- Claim C1 (amended): `Route.is_feasible` returns true iff load ≤ weight
capacity, volume ≤ volume capacity, and both violation accumulators are zero;
unlike the spec's sentence, the required-skill set is not part of the check. -/
theorem C1_route_feasibility (r : Route) :
    Route.isFeasible r = true ↔
      (r.load ≤ r.vehicle.capacity ∧ r.volume ≤ r.vehicle.volumeCapacity ∧
       r.timeWindowsViolation = 0 ∧ r.capacityViolation = 0) := by
  simp [Route.isFeasible, and_assoc]

/-- Claim C2 as stated is false at a concrete pair: under the claim's
Solution-level feasibility both solutions are infeasible and `c2SolB` serves
strictly more stops, so the claimed comparator returns false — but the code's
`_is_better_solution`, whose feasibility test ignores unassigned stops,
returns true. -/
theorem C2_counterexample :
    isBetterSolution c2SolA c2SolB = true ∧
    specBetterSolution c2SolA c2SolB = false := by
  decide

/-- Claim C2 (amended): `_is_better_solution` is the three-level lexicographic
order of the spec, except that the feasibility level compares only
`all(r.feasible)` over the routes — the unassigned list is never consulted. -/
theorem C2_better_characterization (a b : Solution) :
    isBetterSolution a b = true ↔
      ((routesAllFeasible a = true ∧ routesAllFeasible b = false) ∨
       (routesAllFeasible a = routesAllFeasible b ∧
         a.stats.totalPointsServed > b.stats.totalPointsServed) ∨
       (routesAllFeasible a = routesAllFeasible b ∧
         a.stats.totalPointsServed = b.stats.totalPointsServed ∧
         a.stats.totalCost < b.stats.totalCost)) := by
  simp only [isBetterSolution]
  cases hA : routesAllFeasible a <;> cases hB : routesAllFeasible b <;>
    simp [hA, hB]

/-- Claim C3 as stated is false at a concrete solution: with one unassigned
stop the claim predicts the finite value 10 + 1000·1 = 1010, but
`_evaluate_solution` classifies any solution with unassigned stops as
infeasible and returns `float('inf')`. -/
theorem C3_counterexample :
    evaluateSolution c3Sol = ⊤ ∧
    evaluateSolution c3Sol ≠ ((1010 : ℚ) : WithTop ℚ) := by
  decide

/-- Claim C3 (amended): for every solution with at least one unassigned stop,
`_evaluate_solution` returns `float('inf')` (`⊤`); the 1000-per-unserved-stop
penalty branch is unreachable in that case. -/
theorem C3_unassigned_infinite (s : Solution) (h : s.unassigned ≠ []) :
    evaluateSolution s = ⊤ := by
  simp only [evaluateSolution]
  cases h2 : s.unassigned with
  | nil => exact absurd h2 h
  | cons e rest => simp [h2]

/-- Witness for C3 at a concrete solution with an unassigned stop. -/
theorem C3_witness : evaluateSolution c3Sol = ⊤ :=
  C3_unassigned_infinite c3Sol (by decide)

/-- Claim C4 as stated is false at a concrete no-path pair: for a haversine
distance of 1000 m the code stores exactly 1000 in the distance matrix — the
raw great-circle value, with no road-circuity scaling — whereas the claim's
1.4 factor would give 1400. -/
theorem C4_counterexample :
    (matrixEntries none none 1000).1 = ((1000 : ℚ) : WithTop ℚ) ∧
    (matrixEntries none none 1000).1 ≠ (((14 / 10) * 1000 : ℚ) : WithTop ℚ) := by
  refine ⟨rfl, ?_⟩
  simp only [matrixEntries, ne_eq, WithTop.coe_eq_coe]
  norm_num

/-- Claim C4 (amended): when no path exists between the nearest network nodes
of two distinct stops, the distance cell is exactly the unscaled haversine
distance (no circuity factor), the time cell is that distance at the default
40 km/h converted to minutes, and both cells are finite. -/
theorem C4_no_path_fallback (postedSpeed : Option ℚ) (havDist : ℚ) :
    (matrixEntries none postedSpeed havDist).1 = ((havDist : ℚ) : WithTop ℚ) ∧
    (matrixEntries none postedSpeed havDist).2 =
      (((havDist / (40 * 1000 / 3600)) / 60 : ℚ) : WithTop ℚ) ∧
    (matrixEntries none postedSpeed havDist).1 ≠ ⊤ ∧
    (matrixEntries none postedSpeed havDist).2 ≠ ⊤ := by
  refine ⟨rfl, rfl, ?_, ?_⟩ <;> simp [matrixEntries]

lemma tabuConsiderE_empty (cur gb : Solution)
    (acc : Option (Solution × WithTop ℚ × Move)) (n : Solution) :
    tabuConsiderE cur gb [] acc n = Except.ok (tabuConsider0 cur acc n) := by
  rw [tabuConsiderE, tabuConsider0]
  simp only [anyTabu, Bool.not_false, Bool.true_or, Bool.true_and]
  split <;> rfl

lemma selectLoopE_empty_tabu (cur gb : Solution) :
    ∀ (ns : List Solution) (acc : Option (Solution × WithTop ℚ × Move)),
      selectLoopE cur gb [] acc ns =
        Except.ok (ns.foldl (tabuConsider0 cur) acc) := by
  intro ns
  induction ns with
  | nil => intro acc; rfl
  | cons n rest ih =>
    intro acc
    rw [selectLoopE, tabuConsiderE_empty]
    simp only [List.foldl_cons]
    exact ih (tabuConsider0 cur acc n)

lemma selectLoopE_raises (cur gb : Solution) (tm : Move × ℕ)
    (rest : List (Move × ℕ)) (acc : Option (Solution × WithTop ℚ × Move))
    (n : Solution) (ns : List Solution) :
    selectLoopE cur gb (tm :: rest) acc (n :: ns) =
      Except.error PyError.typeError := rfl

lemma select0_none (cur : Solution) :
    ∀ (ns : List Solution) (acc : Option (Solution × WithTop ℚ × Move)),
      ns.foldl (tabuConsider0 cur) acc = none →
      acc = none ∧ ∀ n ∈ ns, ¬ evaluateSolution n < ⊤ := by
  intro ns
  induction ns with
  | nil =>
    intro acc h
    simp only [List.foldl_nil] at h
    exact ⟨h, by simp⟩
  | cons x xs ih =>
    intro acc h
    simp only [List.foldl_cons] at h
    obtain ⟨h1, h2⟩ := ih _ h
    by_cases hc : decide (evaluateSolution x < accValue acc) = true
    · rw [tabuConsider0, if_pos (by simpa using hc)] at h1
      exact absurd h1 (by simp)
    · rw [tabuConsider0, if_neg (by simpa using hc)] at h1
      subst h1
      refine ⟨rfl, ?_⟩
      intro n hn
      rcases List.mem_cons.mp hn with hn | hn
      · subst hn
        simpa [accValue] using hc
      · exact h2 n hn

lemma select0_stays_none (cur : Solution) :
    ∀ (ns : List Solution),
      (∀ n ∈ ns, ¬ evaluateSolution n < ⊤) →
      ns.foldl (tabuConsider0 cur) none = none := by
  intro ns
  induction ns with
  | nil => intro _; rfl
  | cons x xs ih =>
    intro h
    have hx := h x (List.mem_cons_self x xs)
    have hstep : tabuConsider0 cur none x = none := by
      rw [tabuConsider0, if_neg]
      simpa [accValue] using hx
    simp only [List.foldl_cons, hstep]
    exact ih (fun n hn => h n (List.mem_cons_of_mem x hn))

lemma select0_some (cur : Solution) :
    ∀ (ns : List Solution) (acc : Option (Solution × WithTop ℚ × Move))
      (n : Solution) (v : WithTop ℚ) (m : Move),
      ns.foldl (tabuConsider0 cur) acc = some (n, v, m) →
      (acc = some (n, v, m) ∨
        (n ∈ ns ∧ v = evaluateSolution n ∧ m = getMoveDifference cur n)) ∧
      v ≤ accValue acc ∧
      ∀ n2 ∈ ns, v ≤ evaluateSolution n2 := by
  intro ns
  induction ns with
  | nil =>
    intro acc n v m h
    simp only [List.foldl_nil] at h
    subst h
    exact ⟨Or.inl rfl, le_refl _, by simp⟩
  | cons x xs ih =>
    intro acc n v m h
    simp only [List.foldl_cons] at h
    obtain ⟨hmem, hle, hall⟩ := ih _ _ _ _ h
    by_cases hc : decide (evaluateSolution x < accValue acc) = true
    · have hstep : tabuConsider0 cur acc x =
          some (x, evaluateSolution x, getMoveDifference cur x) := by
        rw [tabuConsider0, if_pos (by simpa using hc)]
      rw [hstep] at hmem hle
      have hq : evaluateSolution x < accValue acc := by simpa using hc
      have hvx : v ≤ evaluateSolution x := by simpa [accValue] using hle
      refine ⟨?_, ?_, ?_⟩
      · rcases hmem with hmem | hmem
        · rw [Option.some.injEq, Prod.mk.injEq, Prod.mk.injEq] at hmem
          obtain ⟨he1, he2, he3⟩ := hmem
          subst he1
          exact Or.inr ⟨List.mem_cons_self x xs, he2.symm, he3.symm⟩
        · exact Or.inr ⟨List.mem_cons_of_mem x hmem.1, hmem.2.1, hmem.2.2⟩
      · exact le_of_lt (lt_of_le_of_lt hvx hq)
      · intro n2 hn2
        rcases List.mem_cons.mp hn2 with hn2 | hn2
        · subst hn2; exact hvx
        · exact hall n2 hn2
    · have hstep : tabuConsider0 cur acc x = acc := by
        rw [tabuConsider0, if_neg (by simpa using hc)]
      rw [hstep] at hmem hle
      refine ⟨?_, hle, ?_⟩
      · rcases hmem with hmem | hmem
        · exact Or.inl hmem
        · exact Or.inr ⟨List.mem_cons_of_mem x hmem.1, hmem.2.1, hmem.2.2⟩
      · intro n2 hn2
        rcases List.mem_cons.mp hn2 with hn2 | hn2
        · subst hn2
          have hnl : ¬ evaluateSolution n2 < accValue acc := by
            simpa using hc
          exact le_trans hle (not_lt.mp hnl)
        · exact hall n2 hn2

/-- Claim C5 as stated is false at a concrete iteration: the neighbor set is
non-empty, yet the engine neither advances to a qualifying neighbor nor picks
the best available one regardless of tabu status — with a non-empty tabu
list the membership test subscripts the stored (move, expiry) tuple like a
dict and the search dies with an uncaught TypeError. -/
theorem C5_counterexample :
    tabuSelectStep c5Cur c5Best c5Tabu [c5N] =
      TabuStepResult.raised PyError.typeError ∧
    ([c5N] : List Solution) ≠ [] ∧ c5Tabu ≠ [] ∧
    evaluateSolution c5N < ⊤ := by
  exact ⟨by decide, by simp, by simp [c5Tabu], by decide⟩

/-- Claim C5 (amended): in a tabu iteration whose tabu list is empty the
engine advances to the first minimum-value neighbor with a finite scalar
value, and when every neighbor evaluates to `float('inf')` (or there is no
neighbor) the loop breaks and the search terminates with the current global
best — it never picks a neighbor regardless of tabu status; in any iteration
with a non-empty tabu list and at least one neighbor, the tabu membership
test raises an uncaught TypeError (the tabu list stores (move, expiry)
tuples, but `_is_same_move` subscripts its second argument with 'type'), so
the not-tabu/aspiration selection of the claim never actually runs against a
recorded move. -/
theorem C5_tabu_selection (cur gb : Solution) (ns : List Solution) :
    (∀ tabu : List (Move × ℕ), tabu ≠ [] → ns ≠ [] →
      tabuSelectStep cur gb tabu ns = TabuStepResult.raised PyError.typeError) ∧
    (tabuSelectStep cur gb [] ns = TabuStepResult.terminated ↔
      ∀ n ∈ ns, ¬ evaluateSolution n < ⊤) ∧
    (∀ n v m,
      selectBestNeighborE cur gb [] ns = Except.ok (some (n, v, m)) →
      tabuSelectStep cur gb [] ns = TabuStepResult.advanced n v m ∧
      n ∈ ns ∧ v = evaluateSolution n ∧
      ∀ n2 ∈ ns, v ≤ evaluateSolution n2) := by
  refine ⟨?_, ?_, ?_⟩
  · intro tabu htabu hns
    cases tabu with
    | nil => exact absurd rfl htabu
    | cons tm rest =>
      cases ns with
      | nil => exact absurd rfl hns
      | cons n rest2 =>
        rw [tabuSelectStep, selectBestNeighborE, selectLoopE_raises]
  · constructor
    · intro h
      rw [tabuSelectStep, selectBestNeighborE, selectLoopE_empty_tabu] at h
      cases hs : ns.foldl (tabuConsider0 cur) none with
      | none => exact (select0_none cur ns none hs).2
      | some p =>
        obtain ⟨a, b, c⟩ := p
        rw [hs] at h
        exact absurd h (by simp)
    · intro h
      have hnone := select0_stays_none cur ns h
      rw [tabuSelectStep, selectBestNeighborE, selectLoopE_empty_tabu, hnone]
  · intro n v m hsel
    rw [selectBestNeighborE, selectLoopE_empty_tabu, Except.ok.injEq] at hsel
    obtain ⟨hmem, _, hall⟩ := select0_some cur ns none n v m hsel
    rcases hmem with hmem | hmem
    · exact absurd hmem (by simp)
    · refine ⟨?_, hmem.1, hmem.2.1, hall⟩
      rw [tabuSelectStep, selectBestNeighborE, selectLoopE_empty_tabu, hsel]

/-- Witness for C5: with an empty tabu list the single finite-valued neighbor
is selected and the step advances to it; a lone infinite-valued neighbor
makes the step terminate; and the concrete non-empty tabu list raises. -/
theorem C5_witness :
    tabuSelectStep c5Cur c5Best [] [c5N] =
      TabuStepResult.advanced c5N ((12 : ℚ) : WithTop ℚ)
        (getMoveDifference c5Cur c5N) ∧
    tabuSelectStep c5Cur c5Best [] [c5Inf] = TabuStepResult.terminated ∧
    tabuSelectStep c5Cur c5Best c5Tabu [c5N] =
      TabuStepResult.raised PyError.typeError := by
  refine ⟨((C5_tabu_selection c5Cur c5Best [c5N]).2.2 c5N ((12 : ℚ) : WithTop ℚ)
      (getMoveDifference c5Cur c5N) rfl).1,
    (C5_tabu_selection c5Cur c5Best [c5Inf]).2.1.mpr (by decide),
    (C5_tabu_selection c5Cur c5Best [c5N]).1 c5Tabu (by simp [c5Tabu]) (by simp)⟩

lemma considerAux_none (ctx : BuilderCtx) (v : Vehicle) (load vol t : ℚ) (f : ℕ) :
    ∀ (l : List (ℕ × ℕ)) (acc : Option (ℕ × ℕ × ℚ × ℚ)),
      l.foldl (considerStop ctx v load vol t f) acc = none →
      acc = none ∧ ∀ x ∈ l, ¬ isCandidate ctx v load vol t f x.2 = true := by
  intro l
  induction l with
  | nil =>
    intro acc h
    simp only [List.foldl_nil] at h
    exact ⟨h, by simp⟩
  | cons x xs ih =>
    intro acc h
    simp only [List.foldl_cons] at h
    obtain ⟨h1, h2⟩ := ih _ h
    by_cases hc : isCandidate ctx v load vol t f x.2 = true
    · exfalso
      rw [considerStop, if_pos hc] at h1
      cases acc with
      | none => exact absurd h1 (by simp)
      | some b =>
        obtain ⟨bp, bi, bd, ba⟩ := b
        by_cases hd : ctx.dist f (x.2 + 1) < bd
        · simp only [if_pos hd] at h1
          exact absurd h1 (by simp)
        · simp only [if_neg hd] at h1
          exact absurd h1 (by simp)
    · rw [considerStop, if_neg hc] at h1
      subst h1
      refine ⟨rfl, ?_⟩
      intro y hy
      rcases List.mem_cons.mp hy with hy | hy
      · subst hy; exact hc
      · exact h2 y hy

lemma considerAux_some (ctx : BuilderCtx) (v : Vehicle) (load vol t : ℚ) (f : ℕ) :
    ∀ (l : List (ℕ × ℕ)) (acc : Option (ℕ × ℕ × ℚ × ℚ)) (p i : ℕ) (d a : ℚ),
      l.foldl (considerStop ctx v load vol t f) acc = some (p, i, d, a) →
      ((d : WithTop ℚ) ≤ bestDistSoFar acc) ∧
      (∀ x ∈ l, isCandidate ctx v load vol t f x.2 = true →
        d ≤ ctx.dist f (x.2 + 1)) ∧
      (acc = some (p, i, d, a) ∨
        ((d : WithTop ℚ) < bestDistSoFar acc ∧
         isCandidate ctx v load vol t f p = true ∧
         d = ctx.dist f (p + 1) ∧ a = arrivalTime ctx t f p ∧
         ∃ l1 l2, l = l1 ++ (i, p) :: l2 ∧
           ∀ x ∈ l1, isCandidate ctx v load vol t f x.2 = true →
             d < ctx.dist f (x.2 + 1))) := by
  intro l
  induction l with
  | nil =>
    intro acc p i d a h
    simp only [List.foldl_nil] at h
    subst h
    exact ⟨le_refl _, by simp, Or.inl rfl⟩
  | cons x xs ih =>
    intro acc p i d a h
    simp only [List.foldl_cons] at h
    by_cases hc : isCandidate ctx v load vol t f x.2 = true
    · cases acc with
      | none =>
        have hstep : considerStop ctx v load vol t f none x =
            some (x.2, x.1, ctx.dist f (x.2 + 1), arrivalTime ctx t f x.2) := by
          rw [considerStop, if_pos hc]
        rw [hstep] at h
        obtain ⟨hle, hall, hsel⟩ := ih _ p i d a h
        have hdx : d ≤ ctx.dist f (x.2 + 1) := by
          simpa [bestDistSoFar, WithTop.coe_le_coe] using hle
        refine ⟨le_top, ?_, ?_⟩
        · intro y hy hycand
          rcases List.mem_cons.mp hy with hy | hy
          · subst hy; exact hdx
          · exact hall y hy hycand
        · rcases hsel with hsel | hsel
          · rw [Option.some.injEq, Prod.mk.injEq, Prod.mk.injEq, Prod.mk.injEq] at hsel
            obtain ⟨he1, he2, he3, he4⟩ := hsel
            subst he1; subst he2; subst he3; subst he4
            refine Or.inr ⟨by simp [bestDistSoFar], hc, rfl, rfl, [], xs, by simp, by simp⟩
          · obtain ⟨hlt, hcand, hd, ha, l1, l2, heq, hstrict⟩ := hsel
            have hltx : d < ctx.dist f (x.2 + 1) := by
              simpa [bestDistSoFar, WithTop.coe_lt_coe] using hlt
            refine Or.inr ⟨by simp [bestDistSoFar], hcand, hd, ha, x :: l1, l2,
              by rw [heq]; rfl, ?_⟩
            intro y hy hycand
            rcases List.mem_cons.mp hy with hy | hy
            · subst hy; exact hltx
            · exact hstrict y hy hycand
      | some b =>
        obtain ⟨bp, bi, bd, ba⟩ := b
        by_cases hdlt : ctx.dist f (x.2 + 1) < bd
        · have hstep : considerStop ctx v load vol t f (some (bp, bi, bd, ba)) x =
              some (x.2, x.1, ctx.dist f (x.2 + 1), arrivalTime ctx t f x.2) := by
            rw [considerStop, if_pos hc]
            simp only [if_pos hdlt]
          rw [hstep] at h
          obtain ⟨hle, hall, hsel⟩ := ih _ p i d a h
          have hdx : d ≤ ctx.dist f (x.2 + 1) := by
            simpa [bestDistSoFar, WithTop.coe_le_coe] using hle
          have hdbd : d < bd := lt_of_le_of_lt hdx hdlt
          refine ⟨?_, ?_, ?_⟩
          · simpa [bestDistSoFar, WithTop.coe_lt_coe] using le_of_lt hdbd
          · intro y hy hycand
            rcases List.mem_cons.mp hy with hy | hy
            · subst hy; exact hdx
            · exact hall y hy hycand
          · rcases hsel with hsel | hsel
            · rw [Option.some.injEq, Prod.mk.injEq, Prod.mk.injEq, Prod.mk.injEq] at hsel
              obtain ⟨he1, he2, he3, he4⟩ := hsel
              subst he1; subst he2; subst he3; subst he4
              refine Or.inr ⟨by simpa [bestDistSoFar, WithTop.coe_lt_coe] using hdlt,
                hc, rfl, rfl, [], xs, by simp, by simp⟩
            · obtain ⟨hlt, hcand, hd, ha, l1, l2, heq, hstrict⟩ := hsel
              have hltx : d < ctx.dist f (x.2 + 1) := by
                simpa [bestDistSoFar, WithTop.coe_lt_coe] using hlt
              refine Or.inr ⟨by simpa [bestDistSoFar, WithTop.coe_lt_coe] using hdbd,
                hcand, hd, ha, x :: l1, l2, by rw [heq]; rfl, ?_⟩
              intro y hy hycand
              rcases List.mem_cons.mp hy with hy | hy
              · subst hy; exact hltx
              · exact hstrict y hy hycand
        · have hstep : considerStop ctx v load vol t f (some (bp, bi, bd, ba)) x =
              some (bp, bi, bd, ba) := by
            rw [considerStop, if_pos hc]
            simp only [if_neg hdlt]
          rw [hstep] at h
          obtain ⟨hle, hall, hsel⟩ := ih _ p i d a h
          have hdbd : d ≤ bd := by
            simpa [bestDistSoFar, WithTop.coe_le_coe] using hle
          have hbdx : bd ≤ ctx.dist f (x.2 + 1) := not_lt.mp hdlt
          refine ⟨?_, ?_, ?_⟩
          · simpa [bestDistSoFar, WithTop.coe_le_coe] using hdbd
          · intro y hy hycand
            rcases List.mem_cons.mp hy with hy | hy
            · subst hy; exact le_trans hdbd hbdx
            · exact hall y hy hycand
          · rcases hsel with hsel | hsel
            · exact Or.inl hsel
            · obtain ⟨hlt, hcand, hd, ha, l1, l2, heq, hstrict⟩ := hsel
              have hltbd : d < bd := by
                simpa [bestDistSoFar, WithTop.coe_lt_coe] using hlt
              refine Or.inr ⟨by simpa [bestDistSoFar, WithTop.coe_lt_coe] using hltbd,
                hcand, hd, ha, x :: l1, l2, by rw [heq]; rfl, ?_⟩
              intro y hy hycand
              rcases List.mem_cons.mp hy with hy | hy
              · subst hy; exact lt_of_lt_of_le hltbd hbdx
              · exact hstrict y hy hycand
    · have hstep : considerStop ctx v load vol t f acc x = acc := by
        rw [considerStop, if_neg hc]
      rw [hstep] at h
      obtain ⟨hle, hall, hsel⟩ := ih _ p i d a h
      refine ⟨hle, ?_, ?_⟩
      · intro y hy hycand
        rcases List.mem_cons.mp hy with hy | hy
        · subst hy; exact absurd hycand hc
        · exact hall y hy hycand
      · rcases hsel with hsel | hsel
        · exact Or.inl hsel
        · obtain ⟨hlt, hcand, hd, ha, l1, l2, heq, hstrict⟩ := hsel
          refine Or.inr ⟨hlt, hcand, hd, ha, x :: l1, l2, by rw [heq]; rfl, ?_⟩
          intro y hy hycand
          rcases List.mem_cons.mp hy with hy | hy
          · subst hy; exact absurd hycand hc
          · exact hstrict y hy hycand

lemma considerAux_stays_none (ctx : BuilderCtx) (v : Vehicle) (load vol t : ℚ)
    (f : ℕ) :
    ∀ (l : List (ℕ × ℕ)),
      (∀ x ∈ l, ¬ isCandidate ctx v load vol t f x.2 = true) →
      l.foldl (considerStop ctx v load vol t f) none = none := by
  intro l
  induction l with
  | nil => intro _; rfl
  | cons x xs ih =>
    intro h
    have hstep : considerStop ctx v load vol t f none x = none := by
      rw [considerStop, if_neg (h x (List.mem_cons_self x xs))]
    simp only [List.foldl_cons, hstep]
    exact ih (fun y hy => h y (List.mem_cons_of_mem x hy))

lemma arrivalTime_eq_max (ctx : BuilderCtx) (t : ℚ) (f p : ℕ) :
    arrivalTime ctx t f p =
      max (t + ctx.timeM f (p + 1)) (ctx.pt p).timeWindowStart := by
  rw [arrivalTime]
  rcases lt_or_le (t + ctx.timeM f (p + 1)) (ctx.pt p).timeWindowStart with h | h
  · rw [if_pos h, max_eq_right (le_of_lt h)]
  · rw [if_neg (not_lt.mpr h), max_eq_left h]

lemma addPoint_points (r : Route) (p : Point) (d t : ℚ) :
    (r.addPoint p d t).points = r.points ++ [p] := by
  rw [Route.addPoint]
  split <;> rfl

/-- Claim C6: in every inner-loop iteration of the constructive builder,
(1) a pool stop is a candidate iff its required skills are within the
vehicle's, its weight and volume fit the remaining capacities, and
max(clock + travel, window start) does not exceed its window end;
(2) the scan returns nothing iff no pool stop is a candidate;
(3) a returned stop is a candidate of minimum travel distance from the
current position, the first such stop in pool order, with its window-raised
arrival time; and (4) the step then appends that stop to the route, advances
the clock to max(arrival, window start) plus service time, moves to the stop
and removes it from the pool. -/
theorem C6_builder_step (ctx : BuilderCtx) (v : Vehicle) :
    (∀ (load vol curTime : ℚ) (fromIdx pIdx : ℕ),
      isCandidate ctx v load vol curTime fromIdx pIdx = true ↔
        ((ctx.pt pIdx).requiredSkills ⊆ v.skills ∧
         load + (ctx.pt pIdx).weight ≤ v.capacity ∧
         vol + (ctx.pt pIdx).volume ≤ v.volumeCapacity ∧
         max (curTime + ctx.timeM fromIdx (pIdx + 1))
             (ctx.pt pIdx).timeWindowStart ≤ (ctx.pt pIdx).timeWindowEnd)) ∧
    (∀ (load vol curTime : ℚ) (fromIdx : ℕ) (toAssign : List ℕ),
      findBestCandidate ctx v load vol curTime fromIdx toAssign = none ↔
        ∀ x ∈ toAssign.enum,
          ¬ isCandidate ctx v load vol curTime fromIdx x.2 = true) ∧
    (∀ (load vol curTime : ℚ) (fromIdx : ℕ) (toAssign : List ℕ)
        (p i : ℕ) (d a : ℚ),
      findBestCandidate ctx v load vol curTime fromIdx toAssign =
          some (p, i, d, a) →
        isCandidate ctx v load vol curTime fromIdx p = true ∧
        d = ctx.dist fromIdx (p + 1) ∧
        a = max (curTime + ctx.timeM fromIdx (p + 1))
              (ctx.pt p).timeWindowStart ∧
        (∀ x ∈ toAssign.enum,
          isCandidate ctx v load vol curTime fromIdx x.2 = true →
            d ≤ ctx.dist fromIdx (x.2 + 1)) ∧
        ∃ l1 l2, toAssign.enum = l1 ++ (i, p) :: l2 ∧
          ∀ x ∈ l1, isCandidate ctx v load vol curTime fromIdx x.2 = true →
            d < ctx.dist fromIdx (x.2 + 1)) ∧
    (∀ (st st' : BuilderState), builderStep ctx v st = some st' →
      ∃ p i d a,
        findBestCandidate ctx v st.route.load st.route.volume st.currentTime
            st.currentIdx st.toAssign = some (p, i, d, a) ∧
        st'.route = st.route.addPoint (ctx.pt p) d (d / v.speedMps) ∧
        st'.route.points = st.route.points ++ [ctx.pt p] ∧
        st'.currentTime =
          max (st.currentTime + ctx.timeM st.currentIdx (p + 1))
              (ctx.pt p).timeWindowStart + (ctx.pt p).serviceTime ∧
        st'.currentIdx = p + 1 ∧
        st'.toAssign = st.toAssign.eraseIdx i) := by
  have hcand : ∀ (load vol curTime : ℚ) (fromIdx pIdx : ℕ),
      isCandidate ctx v load vol curTime fromIdx pIdx = true ↔
        ((ctx.pt pIdx).requiredSkills ⊆ v.skills ∧
         load + (ctx.pt pIdx).weight ≤ v.capacity ∧
         vol + (ctx.pt pIdx).volume ≤ v.volumeCapacity ∧
         max (curTime + ctx.timeM fromIdx (pIdx + 1))
             (ctx.pt pIdx).timeWindowStart ≤ (ctx.pt pIdx).timeWindowEnd) := by
    intro load vol curTime fromIdx pIdx
    rw [isCandidate]
    simp only [Bool.and_eq_true, Bool.not_eq_true', Bool.or_eq_false_iff,
      decide_eq_true_iff, decide_eq_false_iff_not, not_lt, gt_iff_lt,
      arrivalTime_eq_max]
    tauto
  refine ⟨hcand, ?_, ?_, ?_⟩
  · intro load vol curTime fromIdx toAssign
    constructor
    · intro h
      exact (considerAux_none ctx v load vol curTime fromIdx _ none h).2
    · intro h
      exact considerAux_stays_none ctx v load vol curTime fromIdx _ h
  · intro load vol curTime fromIdx toAssign p i d a h
    obtain ⟨_, hall, hsel⟩ :=
      considerAux_some ctx v load vol curTime fromIdx _ none p i d a h
    rcases hsel with hsel | hsel
    · exact absurd hsel (by simp)
    · obtain ⟨_, hc, hd, ha, l1, l2, heq, hstrict⟩ := hsel
      exact ⟨hc, hd, ha ▸ arrivalTime_eq_max ctx curTime fromIdx p,
        hall, l1, l2, heq, hstrict⟩
  · intro st st' h
    rw [builderStep] at h
    cases hf : findBestCandidate ctx v st.route.load st.route.volume
        st.currentTime st.currentIdx st.toAssign with
    | none => rw [hf] at h; exact absurd h (by simp)
    | some q =>
      obtain ⟨p, i, d, a⟩ := q
      rw [hf] at h
      simp only [Option.some.injEq] at h
      have ha : a = arrivalTime ctx st.currentTime st.currentIdx p := by
        rcases (considerAux_some ctx v st.route.load st.route.volume
            st.currentTime st.currentIdx _ none p i d a hf).2.2 with hsel | hsel
        · exact absurd hsel (by simp)
        · exact hsel.2.2.2.1
      refine ⟨p, i, d, a, rfl, ?_, ?_, ?_, ?_, ?_⟩
      · rw [← h]
      · rw [← h]; exact addPoint_points _ _ _ _
      · rw [← h]
        rw [ha, arrivalTime_eq_max]
      · rw [← h]
      · rw [← h]

/-- Witness for C6: in the concrete two-stop scenario the scan selects the
nearer stop 0 at distance 1000 with window-raised arrival 490, and the step
appends it, advances the clock and shrinks the pool. -/
theorem C6_witness :
    (isCandidate c6Ctx c6Vehicle 0 0 480 0 0 = true ∧
     (1000 : ℚ) = c6Ctx.dist 0 (0 + 1) ∧
     (490 : ℚ) = max ((480 : ℚ) + c6Ctx.timeM 0 (0 + 1))
       (c6Ctx.pt 0).timeWindowStart) ∧
    (∃ p i d a,
      findBestCandidate c6Ctx c6Vehicle c6State.route.load c6State.route.volume
          c6State.currentTime c6State.currentIdx c6State.toAssign =
        some (p, i, d, a) ∧
      c6StateNext.route = c6State.route.addPoint (c6Ctx.pt p) d (d / c6Vehicle.speedMps) ∧
      c6StateNext.route.points = c6State.route.points ++ [c6Ctx.pt p] ∧
      c6StateNext.currentTime =
        max (c6State.currentTime + c6Ctx.timeM c6State.currentIdx (p + 1))
            (c6Ctx.pt p).timeWindowStart + (c6Ctx.pt p).serviceTime ∧
      c6StateNext.currentIdx = p + 1 ∧
      c6StateNext.toAssign = c6State.toAssign.eraseIdx i) := by
  have hf : findBestCandidate c6Ctx c6Vehicle 0 0 480 0 [0, 1] =
      some (0, 0, 1000, 490) := by
    norm_num [findBestCandidate, considerStop, isCandidate, arrivalTime,
      BuilderCtx.pt, c6Ctx, c6P0, c6P1, c6Vehicle, List.enum]
  have h3 := (C6_builder_step c6Ctx c6Vehicle).2.2.1 0 0 480 0 [0, 1] 0 0 1000 490 hf
  have hf' : findBestCandidate c6Ctx c6Vehicle c6State.route.load
      c6State.route.volume c6State.currentTime c6State.currentIdx
      c6State.toAssign = some (0, 0, 1000, 490) := hf
  have hstep : builderStep c6Ctx c6Vehicle c6State = some c6StateNext := by
    rw [builderStep, hf']
    rw [c6StateNext]
    norm_num [c6State, BuilderCtx.pt, c6Ctx, c6P0]
  exact ⟨⟨h3.1, h3.2.1, h3.2.2.1⟩,
    (C6_builder_step c6Ctx c6Vehicle).2.2.2 c6State c6StateNext hstep⟩

/-- Claim C7 as stated is false at two concrete payloads: malformed
time-window strings raise no input error at all (the solve succeeds, parsing
them as 0 minutes), and a malformed coordinate raises its error only after
the road network has been loaded. -/
theorem C7_counterexample :
    (solveVrp c7ReqBadTime).2 = SolveOutcome.ok ∧
    (solveVrp c7ReqBadCoord).2 = SolveOutcome.inputError SolveError.pointsFailed ∧
    SolveEvent.loadMap ∈ (solveVrp c7ReqBadCoord).1 := by
  decide

/-- Claim C7 (amended): `solve_vrp` fails fast — before any road-network
loading, matrix building or search — exactly for payloads with no vehicles or
no stops; a malformed coordinate raises an input error only after the road
network is loaded; and malformed time-window strings never make point
creation fail (only the coordinate conversions can). -/
theorem C7_input_validation :
    (∀ req : RequestData, req.vehicles = [] →
      solveVrp req = ([], SolveOutcome.inputError SolveError.noVehicles)) ∧
    (∀ req : RequestData, req.vehicles ≠ [] → req.points = [] →
      solveVrp req = ([], SolveOutcome.inputError SolveError.noPoints)) ∧
    (∀ req : RequestData, req.vehicles ≠ [] → req.points ≠ [] →
      createVehicles req.vehicles ≠ none →
      createPoints req.points = none →
      (solveVrp req).2 = SolveOutcome.inputError SolveError.pointsFailed ∧
      SolveEvent.loadMap ∈ (solveVrp req).1) ∧
    (∀ p : PointData, (parsePointData p).isSome ↔ (p.lat.isSome ∧ p.lng.isSome)) := by
  refine ⟨?_, ?_, ?_, ?_⟩
  · intro req h
    rw [solveVrp, if_pos (by simp [h])]
  · intro req h1 h2
    rw [solveVrp, if_neg (by simpa using h1), if_pos (by simp [h2])]
  · intro req h1 h2 h3 h4
    rw [solveVrp, if_neg (by simpa using h1), if_neg (by simpa using h2)]
    cases hv : createVehicles req.vehicles with
    | none => exact absurd hv h3
    | some l =>
      rw [h4]
      exact ⟨rfl, by simp⟩
  · intro p
    rw [parsePointData]
    cases p.lat <;> cases p.lng <;> simp

/-- Witness for C7: the fail-fast branches at concrete payloads, the
after-load coordinate failure at `c7ReqBadCoord`, and a stop whose malformed
time strings do not prevent parsing. -/
theorem C7_witness :
    solveVrp c7ReqEmpty = ([], SolveOutcome.inputError SolveError.noVehicles) ∧
    solveVrp c7ReqNoPoints = ([], SolveOutcome.inputError SolveError.noPoints) ∧
    ((solveVrp c7ReqBadCoord).2 = SolveOutcome.inputError SolveError.pointsFailed ∧
      SolveEvent.loadMap ∈ (solveVrp c7ReqBadCoord).1) ∧
    (parsePointData c7GoodCoordPoint).isSome := by
  refine ⟨C7_input_validation.1 _ rfl, C7_input_validation.2.1 _ (by simp [c7ReqNoPoints]) rfl,
    C7_input_validation.2.2.1 c7ReqBadCoord (by decide) (by decide) (by decide)
      (by decide), ?_⟩
  exact (C7_input_validation.2.2.2 _).mpr (by decide)

lemma eval_eq_top_of_not_feasible (s : Solution)
    (h : (routesAllFeasible s && s.unassigned.isEmpty) = false) :
    evaluateSolution s = ⊤ := by
  rw [evaluateSolution]
  simp [h]

lemma feasible_of_eval_lt (s : Solution) (x : WithTop ℚ)
    (h : evaluateSolution s < x) :
    routesAllFeasible s = true ∧ s.unassigned.isEmpty = true := by
  by_contra hc
  have hf : (routesAllFeasible s && s.unassigned.isEmpty) = false := by
    rcases Bool.eq_false_or_eq_true (routesAllFeasible s) with h1 | h1 <;>
      rcases Bool.eq_false_or_eq_true s.unassigned.isEmpty with h2 | h2 <;>
      simp_all
  rw [eval_eq_top_of_not_feasible s hf] at h
  exact absurd h not_top_lt

lemma eval_of_feasible (s : Solution) (h1 : routesAllFeasible s = true)
    (h2 : s.unassigned.isEmpty = true) (h3 : consistentStats s) :
    evaluateSolution s = ((s.stats.totalCost : ℚ) : WithTop ℚ) := by
  have hlen : s.unassigned.length = 0 := by
    cases hu : s.unassigned with
    | nil => rfl
    | cons a l => rw [hu] at h2; simp at h2
  have hserved : s.stats.totalPointsServed = s.stats.totalPoints := by
    unfold consistentStats at h3
    omega
  rw [evaluateSolution]
  simp [h1, h2, hserved]

/-- Claim C8: across iterations, the stored global best of each of the three
metaheuristics is replaced only by a strictly better solution — under the
§4.3 comparator directly for VND and GRASP, and for Tabu Search (whose update
compares the scalar evaluation) under the conservation of stop counts that
every engine-built solution satisfies. -/
theorem C8_monotone_global_best :
    (∀ cur best : Solution,
      vndUpdateBest cur best = best ∨
      (vndUpdateBest cur best = cur ∧ isBetterSolution cur best = true)) ∧
    (∀ n gb : Solution, consistentStats n → consistentStats gb →
      n.stats.totalPoints = gb.stats.totalPoints →
      tabuUpdateBest n gb = gb ∨
      (tabuUpdateBest n gb = n ∧ isBetterSolution n gb = true)) ∧
    (∀ (sol : Solution) (best : Option Solution),
      graspUpdateBest sol best = best ∨ best = none ∨
      ∃ b, best = some b ∧ graspUpdateBest sol best = some sol ∧
        isBetterSolution sol b = true) := by
  refine ⟨?_, ?_, ?_⟩
  · intro cur best
    by_cases h : isBetterSolution cur best = true
    · exact Or.inr ⟨by rw [vndUpdateBest, if_pos h], h⟩
    · exact Or.inl (by rw [vndUpdateBest, if_neg h])
  · intro n gb hn hgb htot
    by_cases h : evaluateSolution n < evaluateSolution gb
    · refine Or.inr ⟨by rw [tabuUpdateBest, if_pos h], ?_⟩
      obtain ⟨hfn, hen⟩ := feasible_of_eval_lt n _ h
      have hservedn : n.stats.totalPointsServed = n.stats.totalPoints := by
        have : n.unassigned.length = 0 := by
          cases hu : n.unassigned with
          | nil => rfl
          | cons a l => rw [hu] at hen; simp at hen
        unfold consistentStats at hn
        omega
      cases hfg : routesAllFeasible gb with
      | false => simp [isBetterSolution, hfn, hfg]
      | true =>
        cases heg : gb.unassigned.isEmpty with
        | false =>
          have hlen : 0 < gb.unassigned.length := by
            cases hu : gb.unassigned with
            | nil => rw [hu] at heg; simp at heg
            | cons a l => simp [hu]
          have hserved : gb.stats.totalPointsServed < n.stats.totalPointsServed := by
            unfold consistentStats at hgb
            omega
          simp [isBetterSolution, hfn, hfg, hserved]
        | true =>
          have hcost : n.stats.totalCost < gb.stats.totalCost := by
            rw [eval_of_feasible n hfn hen hn,
              eval_of_feasible gb hfg heg hgb] at h
            exact_mod_cast h
          have hserved : n.stats.totalPointsServed = gb.stats.totalPointsServed := by
            have hg : gb.unassigned.length = 0 := by
              cases hu : gb.unassigned with
              | nil => rfl
              | cons a l => rw [hu] at heg; simp at heg
            unfold consistentStats at hgb
            omega
          simp [isBetterSolution, hfn, hfg, hserved, hcost]
    · exact Or.inl (by rw [tabuUpdateBest, if_neg h])
  · intro sol best
    cases best with
    | none => exact Or.inr (Or.inl rfl)
    | some b =>
      by_cases h : isBetterSolution sol b = true
      · exact Or.inr (Or.inr ⟨b, rfl, by rw [graspUpdateBest, if_pos h], h⟩)
      · exact Or.inl (by rw [graspUpdateBest, if_neg h])

/-- Witness for C8: the three update rules at a concrete cheaper-neighbor
scenario with conservation of stop counts. -/
theorem C8_witness :
    (vndUpdateBest c8N c8Gb = c8Gb ∨
      (vndUpdateBest c8N c8Gb = c8N ∧ isBetterSolution c8N c8Gb = true)) ∧
    (tabuUpdateBest c8N c8Gb = c8Gb ∨
      (tabuUpdateBest c8N c8Gb = c8N ∧ isBetterSolution c8N c8Gb = true)) ∧
    (graspUpdateBest c8N (some c8Gb) = some c8Gb ∨ (some c8Gb : Option Solution) = none ∨
      ∃ b, (some c8Gb : Option Solution) = some b ∧
        graspUpdateBest c8N (some c8Gb) = some c8N ∧
        isBetterSolution c8N b = true) :=
  ⟨C8_monotone_global_best.1 c8N c8Gb,
   C8_monotone_global_best.2.1 c8N c8Gb (by simp [consistentStats, c8N])
     (by simp [consistentStats, c8Gb]) (by simp [c8N, c8Gb]),
   C8_monotone_global_best.2.2 c8N (some c8Gb)⟩

lemma addPoint_vehicle (r : Route) (p : Point) (d t : ℚ) :
    (r.addPoint p d t).vehicle = r.vehicle := by
  rw [Route.addPoint]
  split <;> rfl

lemma addPoint_swap_vehicle (r : Route) (v' : Vehicle) (p : Point) (d t : ℚ)
    (hc : v'.costPerKm = r.vehicle.costPerKm)
    (hf : v'.fixedCost = r.vehicle.fixedCost) :
    Route.addPoint { r with vehicle := v' } p d t =
      { r.addPoint p d t with vehicle := v' } := by
  rw [Route.addPoint, Route.addPoint]
  dsimp only
  rw [hc, hf]
  split <;> rfl

lemma updateFold_swap (ctx : BuilderCtx) (v' : Vehicle) :
    ∀ (l : List ℕ) (r : Route) (i : ℕ) (t : ℚ),
      v'.costPerKm = r.vehicle.costPerKm →
      v'.fixedCost = r.vehicle.fixedCost →
      l.foldl (updateStatsFold ctx) ({ r with vehicle := v' }, i, t) =
        ({ (l.foldl (updateStatsFold ctx) (r, i, t)).1 with vehicle := v' },
         (l.foldl (updateStatsFold ctx) (r, i, t)).2) := by
  intro l
  induction l with
  | nil => intro r i t hc hf; rfl
  | cons pIdx rest ih =>
    intro r i t hc hf
    simp only [List.foldl_cons]
    have hstep : updateStatsFold ctx ({ r with vehicle := v' }, i, t) pIdx =
        ({ (updateStatsFold ctx (r, i, t) pIdx).1 with vehicle := v' },
         (updateStatsFold ctx (r, i, t) pIdx).2) := by
      rw [updateStatsFold, updateStatsFold]
      dsimp only
      rw [addPoint_swap_vehicle r v' _ _ _ hc hf]
    have hveh : (updateStatsFold ctx (r, i, t) pIdx).1.vehicle = r.vehicle := by
      rw [updateStatsFold]
      dsimp only
      exact addPoint_vehicle ..
    rw [hstep]
    exact ih (updateStatsFold ctx (r, i, t) pIdx).1
      (updateStatsFold ctx (r, i, t) pIdx).2.1
      (updateStatsFold ctx (r, i, t) pIdx).2.2
      (by rw [hveh]; exact hc) (by rw [hveh]; exact hf)

lemma updateFold_vehicle (ctx : BuilderCtx) :
    ∀ (l : List ℕ) (r : Route) (i : ℕ) (t : ℚ),
      (l.foldl (updateStatsFold ctx) (r, i, t)).1.vehicle = r.vehicle := by
  intro l
  induction l with
  | nil => intro r i t; rfl
  | cons pIdx rest ih =>
    intro r i t
    simp only [List.foldl_cons]
    rw [show updateStatsFold ctx (r, i, t) pIdx =
        ((updateStatsFold ctx (r, i, t) pIdx).1,
         (updateStatsFold ctx (r, i, t) pIdx).2) from rfl]
    rw [ih]
    rw [updateStatsFold]
    dsimp only
    exact addPoint_vehicle ..

lemma updateRouteStats_vehicle (ctx : BuilderCtx) (v : Vehicle) (l : List ℕ) :
    (updateRouteStats ctx v l).vehicle = v := by
  rw [updateRouteStats]
  dsimp only
  split
  · exact updateFold_vehicle ctx l (Route.init v) 0 v.startTime
  · exact updateFold_vehicle ctx l (Route.init v) 0 v.startTime

lemma updateRouteStats_swap (ctx : BuilderCtx) (v : Vehicle) (e : ℚ)
    (l : List ℕ) :
    updateRouteStats ctx { v with endTime := e } l =
      { updateRouteStats ctx v l with vehicle := { v with endTime := e } } := by
  rw [updateRouteStats, updateRouteStats]
  have hinit : Route.init { v with endTime := e } =
      { Route.init v with vehicle := { v with endTime := e } } := rfl
  rw [hinit, updateFold_swap ctx { v with endTime := e } l (Route.init v) 0
    ({ v with endTime := e } : Vehicle).startTime rfl rfl]
  split <;> rfl

/-- Claim C9: the vehicle's operating end time is never consulted when
building or re-evaluating routes — the builder's candidate test, the whole
candidate scan, and `_update_route_stats` are invariant under changing it —
and concretely a vehicle whose window ends at 09:00 still accepts a stop
whose service starts at 09:40 and the resulting route is marked feasible,
because only the stop's own window is checked. -/
theorem C9_vehicle_end_time_unused :
    (∀ (ctx : BuilderCtx) (v : Vehicle) (e load vol t : ℚ) (f p : ℕ),
      isCandidate ctx { v with endTime := e } load vol t f p =
        isCandidate ctx v load vol t f p) ∧
    (∀ (ctx : BuilderCtx) (v : Vehicle) (e load vol t : ℚ) (f : ℕ)
        (pool : List ℕ),
      findBestCandidate ctx { v with endTime := e } load vol t f pool =
        findBestCandidate ctx v load vol t f pool) ∧
    (∀ (ctx : BuilderCtx) (v : Vehicle) (e : ℚ) (l : List ℕ),
      updateRouteStats ctx { v with endTime := e } l =
        { updateRouteStats ctx v l with vehicle := { v with endTime := e } } ∧
      (updateRouteStats ctx { v with endTime := e } l).isFeasible =
        (updateRouteStats ctx v l).isFeasible) ∧
    (isCandidate c9Ctx c9Vehicle 0 0 480 0 0 = true ∧
     480 + c9Ctx.timeM 0 1 > c9Vehicle.endTime ∧
     (updateRouteStats c9Ctx c9Vehicle [0]).isFeasible = true) := by
  refine ⟨?_, ?_, ?_, ?_, ?_, ?_⟩
  · intro ctx v e load vol t f p
    rfl
  · intro ctx v e load vol t f pool
    rfl
  · intro ctx v e l
    refine ⟨updateRouteStats_swap ctx v e l, ?_⟩
    rw [updateRouteStats_swap ctx v e l]
    simp only [Route.isFeasible, updateRouteStats_vehicle]
  · norm_num [isCandidate, arrivalTime, BuilderCtx.pt, c9Ctx, c9Stop, c9Vehicle]
  · norm_num [c9Ctx, c9Vehicle]
  · norm_num [updateRouteStats, updateStatsFold, Route.init, Route.addPoint,
      Route.isFeasible, BuilderCtx.pt, c9Ctx, c9Stop, c9Vehicle,
      Vehicle.speedMps]

/-- Claim C10: the capacity-reason test quantifies only over vehicles that
also possess the stop's required skills, so a stop whose skills no vehicle
has always receives the capacity reason along with the skill reason. -/
theorem C10_capacity_reason_skill_scoped (vehicles : List Vehicle) (p : Point)
    (h : ∀ v ∈ vehicles, ¬ p.requiredSkills ⊆ v.skills) :
    Reason.skillMismatch ∈ unassignedReasons vehicles p ∧
    Reason.capacityMismatch ∈ unassignedReasons vehicles p := by
  have h1 : vehicles.any (fun v => decide (p.requiredSkills ⊆ v.skills)) = false := by
    simp only [List.any_eq_false]
    intro v hv
    simpa using h v hv
  have h2 : vehicles.any (fun v =>
      decide (v.capacity ≥ p.weight) && decide (v.volumeCapacity ≥ p.volume) &&
      decide (p.requiredSkills ⊆ v.skills)) = false := by
    simp only [List.any_eq_false]
    intro v hv
    simp [h v hv]
  rw [unassignedReasons]
  rw [h1, h2]
  simp

/-- Witness for C10: one vehicle with ample capacity but without the 'cold'
skill; the stop gets both the skill and the capacity reasons. -/
theorem C10_witness :
    Reason.skillMismatch ∈ unassignedReasons [c10Vehicle] c10Stop ∧
    Reason.capacityMismatch ∈ unassignedReasons [c10Vehicle] c10Stop ∧
    c10Vehicle.capacity ≥ c10Stop.weight ∧
    c10Vehicle.volumeCapacity ≥ c10Stop.volume :=
  ⟨(C10_capacity_reason_skill_scoped [c10Vehicle] c10Stop (by decide)).1,
   (C10_capacity_reason_skill_scoped [c10Vehicle] c10Stop (by decide)).2,
   by decide, by decide⟩

end Roterizador
